import Mathlib

/-!
# Shallow embedding of the Acera trading dashboard frontend

This development embeds the client-side data layer of the Acera
Next.js application: the widget layout store (Zustand), the watchlist
widget's local state and persistence effects, the polling hooks of
`lib/realTimeData.ts`, the stock search fallback, the API route
handlers, and the cache-backed fetch wrapper `apiGET`.

JavaScript strings stay `String`, JS numbers become `ℚ` (all the
numbers involved are finite decimal literals or simple arithmetic on
them), arrays become `List`, objects with a fixed shape become
structures, and `localStorage` slots become `Option`-valued fields of
an explicit state.  A fetch that can reject is a value of
`Except String _` with the rejection message in the `error` case.
-/

/-- A JSON value, the payload type that flows through the route
handlers and the client cache. -/
inductive Json where
  | null : Json
  | str (s : String) : Json
  | num (q : ℚ) : Json
  | boolean (b : Bool) : Json
  | arr (xs : List Json) : Json
  | obj (fields : List (String × Json)) : Json

/-- JS truthy-or-else on an optional string (`a || b`): an absent or
empty string falls through to the default. -/
def jsOrStr (a : Option String) (b : String) : String :=
  match a with
  | some s => if s = "" then b else s
  | none => b

/-- JS truthy-or-else on an optional number (`a || b`): an absent or
zero number falls through to the default. -/
def jsOrNum (a : Option ℚ) (b : ℚ) : ℚ :=
  match a with
  | some x => if x = 0 then b else x
  | none => b

/-- JS `s.trim()`: strip leading and trailing whitespace. -/
def jsTrim (s : String) : String :=
  (((s.toList.dropWhile Char.isWhitespace).reverse.dropWhile Char.isWhitespace).reverse).asString

/-- JS `s.toUpperCase()` on the ASCII inputs at hand. -/
def jsToUpper (s : String) : String :=
  (s.toList.map Char.toUpper).asString

/-- JS `s.toLowerCase()` on the ASCII inputs at hand. -/
def jsToLower (s : String) : String :=
  (s.toList.map Char.toLower).asString

/-! ## Widget layout store (`useWidgetStore`, Zustand + persist) -/

/-- The widget-type union of the layout store. -/
inductive WidgetType where
  | marketOverview
  | portfolioPerformance
  | aiInsights
  | newsFeed
  | watchlist
  | orderBook
  | sentimentAnalysis
  | marketSignals
deriving DecidableEq, Repr

/-- `ThemeConfig`: the theme record of the store (CSS strings). -/
structure ThemeConfig where
  background : String
  primaryGradient : String
  secondaryGradient : String
  accentColor : String
deriving DecidableEq, Repr

/-- `defaultTheme` from the widget store module. -/
def defaultTheme : ThemeConfig :=
  { background := "radial-gradient(circle at 50% 50%, #0B1120 0%, #090909 100%)"
    primaryGradient := "linear-gradient(135deg, rgba(220, 38, 38, 0.2), rgba(37, 99, 235, 0.2))"
    secondaryGradient := "linear-gradient(135deg, rgba(55, 65, 81, 0.2), rgba(17, 24, 39, 0.2))"
    accentColor := "#6366F1" }

/-- The data part of the Zustand widget store state. -/
structure WidgetState where
  activeWidgets : List WidgetType
  theme : ThemeConfig
deriving DecidableEq, Repr

/-- The store's initial state (before any persisted value is merged). -/
def initialWidgetState : WidgetState :=
  { activeWidgets := [.marketOverview, .portfolioPerformance, .aiInsights, .newsFeed]
    theme := defaultTheme }

/-- `addWidget`: appends the widget to `activeWidgets`; Zustand's `set`
merges the partial update over the rest of the state. -/
def addWidget (s : WidgetState) (w : WidgetType) : WidgetState :=
  { s with activeWidgets := s.activeWidgets ++ [w] }

/-- `removeWidget`: filters the widget out of `activeWidgets`. -/
def removeWidget (s : WidgetState) (w : WidgetType) : WidgetState :=
  { s with activeWidgets := s.activeWidgets.filter (fun x => x ≠ w) }

/-- `reorderWidgets`: replaces `activeWidgets` with the given full
ordering. -/
def reorderWidgets (s : WidgetState) (ws : List WidgetType) : WidgetState :=
  { s with activeWidgets := ws }

/-- A partial theme update (`Partial<ThemeConfig>`). -/
structure ThemePatch where
  background : Option String := none
  primaryGradient : Option String := none
  secondaryGradient : Option String := none
  accentColor : Option String := none

/-- `updateTheme`: spread-merge of a partial theme over the current one. -/
def updateTheme (s : WidgetState) (p : ThemePatch) : WidgetState :=
  { s with theme :=
    { background := p.background.getD s.theme.background
      primaryGradient := p.primaryGradient.getD s.theme.primaryGradient
      secondaryGradient := p.secondaryGradient.getD s.theme.secondaryGradient
      accentColor := p.accentColor.getD s.theme.accentColor } }

/-- The blob the `persist` middleware writes to
`localStorage['widget-store']`: the serialisable state fields,
verbatim. -/
structure PersistedWidgetBlob where
  activeWidgets : List WidgetType
  theme : ThemeConfig
deriving DecidableEq, Repr

/-- `persist` middleware, write side: the store state is mirrored
verbatim into the persisted blob on every update. -/
def persistWidgetStore (s : WidgetState) : PersistedWidgetBlob :=
  { activeWidgets := s.activeWidgets, theme := s.theme }

/-- `persist` middleware, rehydration side: on store creation the
persisted blob is merged over the initial state (every persisted field
wins). -/
def rehydrateWidgetStore (b : PersistedWidgetBlob) : WidgetState :=
  { activeWidgets := b.activeWidgets, theme := b.theme }

/-! ## Watchlist widget (`components/widgets/Watchlist.tsx`) -/

/-- `DEFAULT_WATCHLIST` from the watchlist widget. -/
def DEFAULT_WATCHLIST : List String := ["AAPL", "MSFT", "GOOGL", "AMZN", "NVDA"]

/-- `addSymbol`: trims and upper-cases the input; appends it only when
it is non-empty (JS truthiness of the string), not already present,
and the list holds fewer than 10 entries. -/
def addSymbol (watchlist : List String) (newSymbol : String) : List String :=
  let symbol := jsToUpper (jsTrim newSymbol)
  if symbol ≠ "" ∧ symbol ∉ watchlist ∧ watchlist.length < 10 then
    watchlist ++ [symbol]
  else
    watchlist

/-- `removeSymbol`: filters the symbol out of the watchlist. -/
def removeSymbol (watchlist : List String) (symbol : String) : List String :=
  watchlist.filter (fun s => s ≠ symbol)

/-- The persistence effect of the watchlist widget: it writes
`localStorage['acera-watchlist']` only when the in-memory watchlist is
non-empty, and otherwise leaves the stored value as it was.  The slot
is modelled as `Option (List String)` (the JSON-decoded stored
array). -/
def saveWatchlistEffect (watchlist : List String) (stored : Option (List String)) :
    Option (List String) :=
  if watchlist.length > 0 then some watchlist else stored

/-- The mount effect of the watchlist widget: parse the stored value
if present, else fall back to `DEFAULT_WATCHLIST`. -/
def loadWatchlist (stored : Option (List String)) : List String :=
  match stored with
  | some ws => ws
  | none => DEFAULT_WATCHLIST

/-! ## Cache-backed fetch wrapper (`apiGET`) -/

/-- The TTL of the client fetch cache, in milliseconds. -/
def CACHE_TTL_MS : Nat := 30000

/-- The in-memory cache: URL string to (fetch time in ms, parsed JSON).
A fresh write shadows the old entry (association-list cons). -/
def FetchCache : Type := List (String × (Nat × Json))

/-- Modelled from the spec: `apiGET` is imported by the terminal
widgets from `lib/clientApi` but its definition is not among the
provided sources; the spec's contract is: given a URL, return parsed
JSON; if an entry for that exact URL string was fetched within the
last 30 seconds, return the cached value without a network call;
otherwise fetch over the network and record the result.  `network` is
the JSON the network would deliver for this call, `now` the call time
in ms; the result is (value, updated cache, whether a network request
was issued). -/
def apiGET (network : Json) (now : Nat) (url : String) (cache : FetchCache) :
    Json × FetchCache × Bool :=
  match List.lookup url cache with
  | some (t, v) =>
      if now - t ≤ CACHE_TTL_MS then (v, cache, false)
      else (network, (url, (now, network)) :: cache, true)
  | none => (network, (url, (now, network)) :: cache, true)

/-! ## Next.js route handlers -/

/-- An HTTP response as produced by a route handler: status plus JSON
body. -/
structure HttpResponse where
  status : Nat
  body : Json

/-- `BACKEND_URL` default of the market routes. -/
def BACKEND : String := "http://localhost:8000"

/-- The backend URL built by the quote route. -/
def quoteBackendURL (symbol exchange : String) : String :=
  BACKEND ++ "/api/quote/" ++ symbol ++ "?exchange=" ++ exchange

/-- `GET /api/market/quote`: 400 if `symbol` is absent; otherwise
fetch the backend quote URL and relay status and JSON body.  A
rejected fetch propagates out of the handler (`Except.error`).
`fetchImpl` maps a URL to either a rejection message or (status,
parsed body). -/
def quoteGET (symbol : Option String) (exchange : Option String)
    (fetchImpl : String → Except String (Nat × Json)) : Except String HttpResponse :=
  match symbol with
  | none => .ok ⟨400, Json.obj [("error", Json.str "symbol required")]⟩
  | some sym =>
    match fetchImpl (quoteBackendURL sym (jsOrStr exchange "NSE")) with
    | .error e => .error e
    | .ok (st, data) => .ok ⟨st, data⟩

/-- `GET /api/market/top-movers`: fetch the backend top-movers URL and
relay status and JSON body; a rejected fetch propagates. -/
def topMoversGET (fetchImpl : String → Except String (Nat × Json)) :
    Except String HttpResponse :=
  match fetchImpl (BACKEND ++ "/api/top-movers") with
  | .error e => .error e
  | .ok (st, data) => .ok ⟨st, data⟩

/-- Modelled from the spec: the Next.js runtime is not part of the
sources; per the spec, an unhandled rejection in a route handler
propagates as a 500 whose body carries the native error message. -/
def nextRuntime (r : Except String HttpResponse) : HttpResponse :=
  match r with
  | .ok resp => resp
  | .error e => ⟨500, Json.str e⟩

/-- One result object of the Exa search response. -/
structure ExaResult where
  title : String
  url : String
  publishedDate : String
  text : Option String
  summary : Option String

/-- JS truthy-or on two optional strings (`a || b`). -/
def jsOrOptStr (a b : Option String) : Option String :=
  match a with
  | some s => if s = "" then b else some s
  | none => b

/-- First-occurrence `String.replace` of JS. -/
def jsReplaceFirst (s pat sub : String) : String :=
  match s.splitOn pat with
  | [] => s
  | [x] => x
  | x :: xs => x ++ sub ++ String.intercalate pat xs

/-- `new URL(u).hostname` for an http(s) URL: the part after `//` up
to the next `/`, with any port stripped. -/
def urlHostname (u : String) : String :=
  let rest := ((u.splitOn "//").drop 1).headD u
  (((rest.splitOn "/").headD rest).toList.takeWhile (fun c => c ≠ ':')).asString

/-- The per-result reshaping done by the news route. -/
structure SimplifiedNews where
  title : String
  url : String
  publishedDate : String
  snippet : Option String
  source : String

/-- JSON encoding of a reshaped news item. -/
def simplifiedNewsToJson (n : SimplifiedNews) : Json :=
  Json.obj
    [ ("title", Json.str n.title)
    , ("url", Json.str n.url)
    , ("publishedDate", Json.str n.publishedDate)
    , ("snippet", match n.snippet with | some s => Json.str s | none => Json.null)
    , ("source", Json.str n.source) ]

/-- The default query of the news route. -/
def newsQueryDefault : String :=
  "Indian stock market latest news site:moneycontrol.com OR site:economictimes.com"

/-- The news route's Exa proxy (`GET /api/news`): 500 when
`EXA_API_KEY` is unset; otherwise POST the (defaulted) query to Exa,
reshape `json.results || []`, and respond with status 200.  `exaFetch`
maps the query to the upstream (status, optional `results` field). -/
def newsGET (exaKey : Option String) (q : Option String)
    (exaFetch : String → Nat × Option (List ExaResult)) : HttpResponse :=
  match exaKey with
  | none => ⟨500, Json.obj [("error", Json.str "EXA_API_KEY not configured")]⟩
  | some _ =>
    let upstream := exaFetch (jsOrStr q newsQueryDefault)
    let simplified := (upstream.2.getD []).map (fun r =>
      { title := r.title
        url := r.url
        publishedDate := r.publishedDate
        snippet := jsOrOptStr r.text r.summary
        source := jsReplaceFirst (urlHostname r.url) "www." "" : SimplifiedNews })
    ⟨200, Json.obj [("data", Json.arr (simplified.map simplifiedNewsToJson))]⟩

/-! ## Real-time data layer (`lib/realTimeData.ts`) -/

/-- `StockData` as produced by `fetchStockData` / `searchStocks`. -/
structure StockData where
  symbol : String
  name : String
  price : ℚ
  change : ℚ
  changePercent : ℚ
  volume : Int
  marketCap : Int
  high52w : ℚ
  low52w : ℚ
  lastUpdated : String
deriving DecidableEq, Repr

/-- The optional fields `fetchStockData` reads off the parsed backend
JSON. -/
structure RawStock where
  symbol : Option String := none
  name : Option String := none
  price : Option ℚ := none
  close : Option ℚ := none
  change : Option ℚ := none
  changePercent : Option ℚ := none
  percent_change : Option ℚ := none
  volume : Option ℚ := none
  marketCap : Option ℚ := none
  high52w : Option ℚ := none
  yearHigh : Option ℚ := none
  low52w : Option ℚ := none
  yearLow : Option ℚ := none

/-- JS `parseInt` on a number: truncation toward zero. -/
def jsTrunc (q : ℚ) : Int :=
  if 0 ≤ q then ⌊q⌋ else -⌊-q⌋

/-- `fetchStockData`: on a successful fetch of 2xx JSON, coalesce the
fields with `||` defaults; on any failure (network rejection, non-ok
status, JSON parse error) return the random mock record — the
function itself never throws.  `now` is `new Date().toISOString()`,
`rands k` the k-th `Math.random()` drawn in the mock branch. -/
def fetchStockData (symbol now : String) (rands : Nat → ℚ)
    (res : Except String RawStock) : StockData :=
  match res with
  | .ok d =>
    { symbol := jsOrStr d.symbol symbol
      name := jsOrStr d.name "Unknown Company"
      price := jsOrNum d.price (jsOrNum d.close 0)
      change := jsOrNum d.change 0
      changePercent := jsOrNum d.changePercent (jsOrNum d.percent_change 0)
      volume := jsTrunc (jsOrNum d.volume 0)
      marketCap := jsTrunc (jsOrNum d.marketCap 0)
      high52w := jsOrNum d.high52w (jsOrNum d.yearHigh 0)
      low52w := jsOrNum d.low52w (jsOrNum d.yearLow 0)
      lastUpdated := now }
  | .error _ =>
    { symbol := symbol
      name := "Mock Company"
      price := 100 + rands 0 * 200
      change := (rands 1 - 1/2) * 10
      changePercent := (rands 2 - 1/2) * 5
      volume := ⌊rands 3 * 1000000⌋
      marketCap := ⌊rands 4 * 1000000000⌋
      high52w := 150 + rands 5 * 100
      low52w := 50 + rands 6 * 50
      lastUpdated := now }

/-- The `{data, loading, error}` state of a polling hook. -/
structure HookState where
  data : Option StockData
  loading : Bool
  error : Option String
deriving DecidableEq, Repr

/-- Initial hook state: no data, loading, no error. -/
def initialHookState : HookState :=
  { data := none, loading := true, error := none }

/-- One run of the hook's `fetchData` callback, given the settled
outcome of the awaited fetcher promise: `setError(null)` first, then
on fulfilment `setData`; on rejection `setError(message)` leaving
`data` alone; `setLoading(false)` in `finally`. -/
def hookFetchStep (s : HookState) (r : Except String StockData) : HookState :=
  match r with
  | .ok v => { data := some v, loading := false, error := none }
  | .error e => { s with loading := false, error := some e }

/-- One run of `useStockData`'s `fetchData` in terms of the network
outcome: the awaited promise is `fetchStockData`, which always
fulfils (errors are swallowed into mock data inside it). -/
def useStockDataStep (s : HookState) (symbol now : String) (rands : Nat → ℚ)
    (netRes : Except String RawStock) : HookState :=
  hookFetchStep s (.ok (fetchStockData symbol now rands netRes))

/-! ## Stock search (`searchStocks`) -/

/-- Does `l` start with `q`? (character lists) -/
def charsStartWith : List Char → List Char → Bool
  | _, [] => true
  | [], _ :: _ => false
  | a :: as, b :: bs => a = b && charsStartWith as bs

/-- Does `q` occur as a contiguous run inside `l`? -/
def charsHaveSub (q : List Char) : List Char → Bool
  | [] => charsStartWith [] q
  | c :: t => charsStartWith (c :: t) q || charsHaveSub q t

/-- JS `s.includes(needle)`. -/
def jsIncludes (s needle : String) : Bool :=
  charsHaveSub needle.toList s.toList

/-- The fields `searchStocks` reads off one element of the backend
search array. -/
structure RawSearchItem where
  symbol : String
  name : String
  price : Option ℚ := none
  change : Option ℚ := none
  changePercent : Option ℚ := none
  volume : Option ℚ := none
  marketCap : Option ℚ := none
  high52w : Option ℚ := none
  low52w : Option ℚ := none

/-- The hard-coded mock search results used when the search endpoint
fails (`now` stands for `new Date().toISOString()`). -/
def mockSearchResults (now : String) : List StockData :=
  [ { symbol := "AAPL", name := "Apple Inc.", price := 182.89, change := 2.15,
      changePercent := 1.23, volume := 45000000, marketCap := 2800000000000,
      high52w := 198.23, low52w := 123.45, lastUpdated := now }
  , { symbol := "MSFT", name := "Microsoft Corp.", price := 337.20, change := -1.52,
      changePercent := -0.45, volume := 25000000, marketCap := 2500000000000,
      high52w := 384.30, low52w := 245.18, lastUpdated := now }
  , { symbol := "GOOGL", name := "Alphabet Inc. Class A", price := 131.86, change := 0.75,
      changePercent := 0.57, volume := 18000000, marketCap := 1600000000000,
      high52w := 151.55, low52w := 83.34, lastUpdated := now }
  , { symbol := "AMZN", name := "Amazon.com Inc.", price := 127.12, change := -0.89,
      changePercent := -0.69, volume := 35000000, marketCap := 1300000000000,
      high52w := 170.00, low52w := 101.26, lastUpdated := now }
  , { symbol := "NVDA", name := "NVIDIA Corporation", price := 421.01, change := 8.45,
      changePercent := 2.05, volume := 55000000, marketCap := 1000000000000,
      high52w := 502.66, low52w := 180.96, lastUpdated := now }
  , { symbol := "TSLA", name := "Tesla Inc.", price := 248.50, change := -3.21,
      changePercent := -1.27, volume := 42000000, marketCap := 800000000000,
      high52w := 299.29, low52w := 138.80, lastUpdated := now }
  , { symbol := "META", name := "Meta Platforms Inc.", price := 295.89, change := 1.23,
      changePercent := 0.42, volume := 28000000, marketCap := 750000000000,
      high52w := 384.33, low52w := 224.91, lastUpdated := now } ]

/-- `searchStocks`: on a 2xx array response, map the items through the
`||`-defaulting conversion; on a 2xx non-array, return `[]`; on any
failure, filter the mock results by case-insensitive substring match
on symbol or name.  `res`'s `ok` payload is `some items` when
`Array.isArray(data)` holds and `none` otherwise. -/
def searchStocks (query now : String)
    (res : Except String (Option (List RawSearchItem))) : List StockData :=
  match res with
  | .ok (some items) => items.map (fun item =>
      { symbol := item.symbol
        name := item.name
        price := jsOrNum item.price 0
        change := jsOrNum item.change 0
        changePercent := jsOrNum item.changePercent 0
        volume := jsTrunc (jsOrNum item.volume 0)
        marketCap := jsTrunc (jsOrNum item.marketCap 0)
        high52w := jsOrNum item.high52w 0
        low52w := jsOrNum item.low52w 0
        lastUpdated := now })
  | .ok none => []
  | .error _ =>
    (mockSearchResults now).filter (fun stock =>
      jsIncludes (jsToLower stock.symbol) (jsToLower query) ||
      jsIncludes (jsToLower stock.name) (jsToLower query))

/-! ## Helper states for the hook counterexample -/

/-- A stale stock record previously held by the hook. -/
def staleStock : StockData :=
  { symbol := "AAPL", name := "Apple Inc.", price := 1, change := 0,
    changePercent := 0, volume := 0, marketCap := 0, high52w := 0,
    low52w := 0, lastUpdated := "t0" }

/-- A hook state that already holds `staleStock` with no error. -/
def staleHookState : HookState :=
  { data := some staleStock, loading := false, error := none }

/-! ## Claim theorems -/

/-- C1: for `apiGET`, two calls with the same URL string within 30
seconds issue exactly one network request — the second call returns
the cached parsed JSON without a network call — and a call for the
same URL more than 30 seconds after the first issues a second network
request. -/
theorem apiGET_ttl_cache (url : String) (c0 : FetchCache) (t1 t2 t3 : Nat)
    (j1 j2 j3 : Json)
    (h0 : List.lookup url c0 = none) (hin : t2 - t1 ≤ 30000)
    (hout : 30000 < t3 - t1) :
    (apiGET j1 t1 url c0).2.2 = true ∧
    (apiGET j2 t2 url (apiGET j1 t1 url c0).2.1).2.2 = false ∧
    (apiGET j2 t2 url (apiGET j1 t1 url c0).2.1).1 = (apiGET j1 t1 url c0).1 ∧
    (apiGET j3 t3 url (apiGET j1 t1 url c0).2.1).2.2 = true := by
  have e1 : apiGET j1 t1 url c0 = (j1, (url, (t1, j1)) :: c0, true) := by
    simp [apiGET, h0]
  have hl : List.lookup url ((url, (t1, j1)) :: c0) = some (t1, j1) := by
    simp [List.lookup]
  have e2 : apiGET j2 t2 url ((url, (t1, j1)) :: c0) =
      (j1, (url, (t1, j1)) :: c0, false) := by
    unfold apiGET
    rw [hl]
    simp only [CACHE_TTL_MS, if_pos hin]
  have e3 : (apiGET j3 t3 url ((url, (t1, j1)) :: c0)).2.2 = true := by
    unfold apiGET
    rw [hl]
    simp only [CACHE_TTL_MS, if_neg (by omega : ¬ t3 - t1 ≤ 30000)]
  rw [e1, e2]
  exact ⟨rfl, rfl, rfl, e3⟩

/-- Witness for C1 at a concrete cache history. -/
theorem apiGET_ttl_cache_witness :
    (apiGET Json.null 0 "/api/market/index" []).2.2 = true ∧
    (apiGET (Json.num 1) 30000 "/api/market/index"
      (apiGET Json.null 0 "/api/market/index" []).2.1).2.2 = false ∧
    (apiGET (Json.num 1) 30000 "/api/market/index"
      (apiGET Json.null 0 "/api/market/index" []).2.1).1 =
      (apiGET Json.null 0 "/api/market/index" []).1 ∧
    (apiGET (Json.num 2) 30001 "/api/market/index"
      (apiGET Json.null 0 "/api/market/index" []).2.1).2.2 = true :=
  apiGET_ttl_cache "/api/market/index" [] 0 30000 30001 Json.null (Json.num 1)
    (Json.num 2) rfl (by decide) (by decide)

/-- C2: for `GET /api/market/quote` with a `symbol` present, a failing
backend fetch makes the handler propagate the fetch error unchanged;
the resulting response is a 500 (never 2xx, in particular never 200)
whose body carries that error. -/
theorem quoteGET_backend_failure (sym : String) (exchange : Option String)
    (fetchImpl : String → Except String (Nat × Json)) (e : String)
    (hf : fetchImpl (quoteBackendURL sym (jsOrStr exchange "NSE")) = .error e) :
    quoteGET (some sym) exchange fetchImpl = .error e ∧
    (nextRuntime (quoteGET (some sym) exchange fetchImpl)).status = 500 ∧
    ¬ (200 ≤ (nextRuntime (quoteGET (some sym) exchange fetchImpl)).status ∧
        (nextRuntime (quoteGET (some sym) exchange fetchImpl)).status < 300) ∧
    (nextRuntime (quoteGET (some sym) exchange fetchImpl)).body = Json.str e := by
  have hq : quoteGET (some sym) exchange fetchImpl = .error e := by
    simp [quoteGET, hf]
  rw [hq]
  exact ⟨rfl, rfl, by simp [nextRuntime], rfl⟩

/-- Witness for C2: backend unreachable for `TCS` on `NSE`. -/
theorem quoteGET_backend_failure_witness :
    quoteGET (some "TCS") (some "NSE") (fun _ => .error "fetch failed") =
      .error "fetch failed" ∧
    (nextRuntime (quoteGET (some "TCS") (some "NSE")
      (fun _ => .error "fetch failed"))).status = 500 ∧
    ¬ (200 ≤ (nextRuntime (quoteGET (some "TCS") (some "NSE")
        (fun _ => .error "fetch failed"))).status ∧
       (nextRuntime (quoteGET (some "TCS") (some "NSE")
        (fun _ => .error "fetch failed"))).status < 300) ∧
    (nextRuntime (quoteGET (some "TCS") (some "NSE")
      (fun _ => .error "fetch failed"))).body = Json.str "fetch failed" :=
  quoteGET_backend_failure "TCS" (some "NSE") (fun _ => .error "fetch failed")
    "fetch failed" rfl

/-- C3 counterexample: the news route proxies Exa but answers 200 even
when the upstream response has status 503, so not every proxying route
handler relays the upstream status code. -/
theorem newsGET_fixed_status_counterexample :
    (newsGET (some "exa-key") none (fun _ => (503, none))).status = 200 ∧
    (503 : Nat) ≠ 200 :=
  ⟨rfl, by decide⟩

/-- C3 (amended): the market quote and top-movers handlers relay the
upstream status code and JSON body, but the news (Exa) proxy responds
with status 200 fixed independently of the upstream status whenever
the API key is configured. -/
theorem proxy_status_relay (sym : String) (exch : Option String) (st : Nat)
    (body : Json) (key q : String) (exaSt : Nat)
    (results : Option (List ExaResult)) :
    quoteGET (some sym) exch (fun _ => .ok (st, body)) = .ok ⟨st, body⟩ ∧
    topMoversGET (fun _ => .ok (st, body)) = .ok ⟨st, body⟩ ∧
    (newsGET (some key) (some q) (fun _ => (exaSt, results))).status = 200 :=
  ⟨rfl, rfl, rfl⟩

/-- C4: `addSymbol` is a no-op when the normalised symbol is already
present or the watchlist is full, never grows the watchlist past 10
entries, and never introduces a duplicate. -/
theorem addSymbol_noop_and_invariants (ws : List String) (inp : String) :
    ((jsToUpper (jsTrim inp) ∈ ws ∨ ws.length = 10) → addSymbol ws inp = ws) ∧
    (ws.length ≤ 10 → (addSymbol ws inp).length ≤ 10) ∧
    (ws.Nodup → (addSymbol ws inp).Nodup) := by
  unfold addSymbol
  by_cases h : jsToUpper (jsTrim inp) ≠ "" ∧ jsToUpper (jsTrim inp) ∉ ws ∧
      ws.length < 10
  · obtain ⟨h1, h2, h3⟩ := h
    simp only [if_pos (⟨h1, h2, h3⟩ :
      jsToUpper (jsTrim inp) ≠ "" ∧ jsToUpper (jsTrim inp) ∉ ws ∧ ws.length < 10)]
    refine ⟨fun hc => ?_, fun _ => ?_, fun hnd => ?_⟩
    · rcases hc with hmem | hlen
      · exact absurd hmem h2
      · omega
    · simp only [List.length_append, List.length_singleton]
      omega
    · simp only [List.nodup_append, List.nodup_singleton, true_and]
      exact ⟨hnd, fun a ha hmem => h2 ((List.mem_singleton.mp hmem) ▸ ha)⟩
  · simp only [if_neg h]
    exact ⟨fun _ => trivial, fun hl => hl, fun hnd => hnd⟩

/-- Witness for C4: adding an already-present symbol is a no-op, and
the length and no-duplicate bounds hold at a concrete input. -/
theorem addSymbol_noop_and_invariants_witness :
    addSymbol ["AAPL"] " aapl " = ["AAPL"] ∧
    (addSymbol ["AAPL"] "msft").length ≤ 10 ∧
    (addSymbol ["AAPL"] "msft").Nodup :=
  ⟨(addSymbol_noop_and_invariants ["AAPL"] " aapl ").1 (Or.inl (by decide)),
   (addSymbol_noop_and_invariants ["AAPL"] "msft").2.1 (by decide),
   (addSymbol_noop_and_invariants ["AAPL"] "msft").2.2 (by decide)⟩

/-- C5: `reorderWidgets` replaces `activeWidgets` with exactly the
given ordering (leaving the theme alone) and is idempotent. -/
theorem reorderWidgets_total_replacement (s : WidgetState) (ws : List WidgetType) :
    (reorderWidgets s ws).activeWidgets = ws ∧
    (reorderWidgets s ws).theme = s.theme ∧
    reorderWidgets (reorderWidgets s ws) ws = reorderWidgets s ws :=
  ⟨rfl, rfl, rfl⟩

/-- C6: reordering, persisting the store and rehydrating a fresh store
from the persisted blob restores `activeWidgets` equal to the given
ordering (and in fact the whole state). -/
theorem reorder_persist_rehydrate_roundtrip (s : WidgetState) (ws : List WidgetType) :
    (rehydrateWidgetStore (persistWidgetStore (reorderWidgets s ws))).activeWidgets
      = ws ∧
    rehydrateWidgetStore (persistWidgetStore (reorderWidgets s ws))
      = reorderWidgets s ws :=
  ⟨rfl, rfl⟩

/-- C7 counterexample: starting from a hook state holding stale data
and no error, a failing network fetch does not set `error` (it stays
`none`) and does not retain the stale data — `fetchStockData` swallows
the failure and resolves with mock data, which replaces the held
record. -/
theorem useStockData_error_mock_counterexample :
    (useStockDataStep staleHookState "AAPL" "t1" (fun _ => 0)
      (.error "Failed to fetch stock data")).error = none ∧
    (useStockDataStep staleHookState "AAPL" "t1" (fun _ => 0)
      (.error "Failed to fetch stock data")).data ≠ staleHookState.data := by
  refine ⟨rfl, ?_⟩
  decide

/-- C7 (amended): the hook's rejection path does set `error` to the
message and retain `data` unchanged; but in `useStockData` a failing
network fetch never takes that path — `fetchStockData` converts the
failure into mock data, so the hook replaces `data` with the mock
record and leaves `error` at `none`. -/
theorem hook_error_path_retains_data (s : HookState) (e sym now : String)
    (rands : Nat → ℚ) :
    (hookFetchStep s (.error e)).error = some e ∧
    (hookFetchStep s (.error e)).data = s.data ∧
    (useStockDataStep s sym now rands (.error e)).error = none ∧
    (useStockDataStep s sym now rands (.error e)).data =
      some (fetchStockData sym now rands (.error e)) :=
  ⟨rfl, rfl, rfl, rfl⟩

/-- C8: when the search fetch fails, `searchStocks "AAPL"` falls back
to the mock results and returns a non-empty array whose first element
has symbol `"AAPL"`. -/
theorem searchStocks_mock_AAPL (now e : String) :
    searchStocks "AAPL" now (.error e) ≠ [] ∧
    (searchStocks "AAPL" now (.error e)).head?.map (fun s => s.symbol) =
      some "AAPL" := by
  constructor
  · intro h
    have h2 : (searchStocks "AAPL" now (.error e)).head?.map (fun s => s.symbol) =
        some "AAPL" := rfl
    rw [h] at h2
    simp at h2
  · rfl

/-- C9: `addWidget` appends unconditionally — the widget's occurrence
count always grows by one (so adding an already-active widget type
creates a duplicate) and the theme is untouched. -/
theorem addWidget_appends_unconditionally (s : WidgetState) (w : WidgetType) :
    (addWidget s w).activeWidgets = s.activeWidgets ++ [w] ∧
    (addWidget s w).theme = s.theme ∧
    List.count w (addWidget s w).activeWidgets =
      List.count w s.activeWidgets + 1 ∧
    (w ∈ s.activeWidgets → ¬ (addWidget s w).activeWidgets.Nodup) := by
  refine ⟨rfl, rfl, ?_, ?_⟩
  · simp [addWidget]
  · intro hmem hnd
    rw [show (addWidget s w).activeWidgets = s.activeWidgets ++ [w] from rfl] at hnd
    rcases List.nodup_append.mp hnd with ⟨_, _, hdisj⟩
    exact hdisj hmem (List.mem_singleton.mpr rfl)

/-- Witness for C9: adding the already-active market-overview widget
to the default layout produces a duplicate entry. -/
theorem addWidget_appends_unconditionally_witness :
    ¬ (addWidget initialWidgetState .marketOverview).activeWidgets.Nodup :=
  (addWidget_appends_unconditionally initialWidgetState .marketOverview).2.2.2
    (by decide)

/-- C10: the watchlist persistence effect leaves the stored value
untouched whenever a removal empties the watchlist, so rehydrating
afterwards restores the previously persisted non-empty watchlist. -/
theorem watchlist_empty_not_persisted (ws : List String) (sym : String)
    (stored : Option (List String)) (prev : List String)
    (hempty : removeSymbol ws sym = []) (hstored : stored = some prev) :
    saveWatchlistEffect (removeSymbol ws sym) stored = stored ∧
    loadWatchlist (saveWatchlistEffect (removeSymbol ws sym) stored) = prev := by
  rw [hempty]
  refine ⟨rfl, ?_⟩
  rw [show saveWatchlistEffect [] stored = stored from rfl, hstored]
  rfl

/-- Witness for C10: removing the only symbol leaves the stored
watchlist as it was, and a reload restores it. -/
theorem watchlist_empty_not_persisted_witness :
    saveWatchlistEffect (removeSymbol ["AAPL"] "AAPL") (some ["AAPL"]) =
      some ["AAPL"] ∧
    loadWatchlist (saveWatchlistEffect (removeSymbol ["AAPL"] "AAPL")
      (some ["AAPL"])) = ["AAPL"] :=
  watchlist_empty_not_persisted ["AAPL"] "AAPL" (some ["AAPL"]) ["AAPL"]
    (by decide) rfl
